import Mathlib

/-!
Shallow embedding of the two saver adapters of the altair_saver repository:

* `src/altair_savechart/_node.py` — the command-line adapter
  (`_NodeCommands` and `NodeSaver`), which locates the npm root
  directory, invokes four external converter binaries (`vl2vg`,
  `vg2png`, `vg2pdf`, `vg2svg`), and builds a single-key mimebundle.

* `src/altair_saver/savers/_pyppeteer.py` — the browser adapter
  (`PyppeteerSaver`), which launches a headless browser, evaluates an
  in-page script, and post-processes the returned payload.

External effects (subprocess output, filesystem predicates, the browser
evaluation bridge) are modelled as oracle fields of an environment
structure, and every operation additionally returns the list of
external invocations it performed, so that "no external process is
invoked before the error" is a statement about that trace.
-/

deriving instance DecidableEq for Except

namespace AltairSaver

/-- One external invocation performed by the command-line adapter:
either the `npm root [--global]` discovery query, or running one of the
converter binaries (identified by its command name). -/
inductive ExtCall where
  | npmRootQuery : ExtCall
  | runBinary : String → ExtCall
deriving DecidableEq, Repr

/-- Errors raised by the command-line adapter: `ValueError` for invalid
requests and `RuntimeError` for configuration / missing-tool failures,
each carrying the message string built by the source. -/
inductive NodeError where
  | valueError : String → NodeError
  | runtimeError : String → NodeError
deriving DecidableEq, Repr

/-- Content stored under a MIME-type key of a mimebundle: a JSON spec
passed through, raw bytes (PNG/PDF), or text (SVG). -/
inductive Content (σ : Type) where
  | json : σ → Content σ
  | bytes : List Nat → Content σ
  | text : String → Content σ
deriving DecidableEq, Repr

/-- A mimebundle: association list from MIME-type strings to content.
`NodeSaver._mimebundle` always builds a one-element dict. -/
abbrev Mimebundle (σ : Type) := List (String × Content σ)

/-- Environment of the command-line adapter.  The chart spec type `σ` is
opaque (the layer never inspects specs).  Fields model, in order: the
`global_` construction flag, the stripped stdout of `npm root`, the
`os.path.isdir` and `os.path.exists` predicates, the four external
converter binaries as oracles (each abstracts the json.dumps /
subprocess / parse round trip of the corresponding `_NodeCommands`
method), and the `alt.VEGA_VERSION` / `alt.VEGALITE_VERSION` strings. -/
structure NodeEnv (σ : Type) where
  globalInstall : Bool
  npmRootOutput : String
  isdir : String → Bool
  pathExists : String → Bool
  vl2vg_run : σ → σ
  vg2png_run : σ → List Nat
  vg2pdf_run : σ → List Nat
  vg2svg_run : σ → String
  vegaVersion : String
  vegaliteVersion : String

/-- The memo state of `_NodeCommands.npm_root`.  The source decorates
the method with `@lru_cache(1)`: a single cache slot for the method,
keyed by the instance (`self`), so the state is at most one pair of an
instance id and the cached root string. -/
structure NodeState where
  npmCache : Option (Nat × String)
deriving DecidableEq, Repr

/-- `self._install_cmd`, chosen in `_NodeCommands.__init__` from the
`global_` flag. -/
def installCmd (globalInstall : Bool) : String :=
  if globalInstall then "Install with npm install -g vega-lite vega-cli"
  else "Install with npm install vega-lite vega-cli"

/-- `os.path.join(root, pkg, "bin", bin)` for the simple relative
components used by the source. -/
def pathJoin (root pkg lastdir bin : String) : String :=
  root ++ "/" ++ pkg ++ "/" ++ lastdir ++ "/" ++ bin

/-- `version.split(".")[0]`: the major component of a version string,
i.e. the characters before the first dot (the whole string when there
is no dot, matching Python `split`). -/
def majorVersion (v : String) : String :=
  String.mk (v.data.takeWhile (fun c => c ≠ Char.ofNat 46))

namespace NodeCommands

/-- The uncached body of `_NodeCommands.npm_root`: run `npm root
[--global]`, strip, fail with `RuntimeError` unless the result is a
directory.  On success `lru_cache` stores the value under the calling
instance `i` (evicting any previous entry, since the cache holds one
slot); on an exception nothing is cached. -/
def npmRootCompute (env : NodeEnv σ) (i : Nat) (s : NodeState) :
    Except NodeError String × NodeState × List ExtCall :=
  if env.isdir env.npmRootOutput then
    (.ok env.npmRootOutput, ⟨some (i, env.npmRootOutput)⟩, [.npmRootQuery])
  else
    (.error (.runtimeError ("npm root not found; got " ++ env.npmRootOutput)), s,
      [.npmRootQuery])

/-- `_NodeCommands.npm_root` as seen through `@property @lru_cache(1)`:
if the single cache slot holds an entry for this instance, return it
without any external call; otherwise run the query (replacing the
slot on success). -/
def npmRoot (env : NodeEnv σ) (i : Nat) (s : NodeState) :
    Except NodeError String × NodeState × List ExtCall :=
  match s.npmCache with
  | some (j, r) =>
      if j = i then (.ok r, s, []) else npmRootCompute env i s
  | none => npmRootCompute env i s

/-- Common shape of the four converter methods of `_NodeCommands`:
resolve `npm_root`, join the binary path, raise `RuntimeError` with the
install hint when the binary is absent, otherwise run it (recording the
invocation) and return its output `out`. -/
def runTool (env : NodeEnv σ) (i : Nat) (pkg bin : String) (out : α)
    (s : NodeState) : Except NodeError α × NodeState × List ExtCall :=
  match npmRoot env i s with
  | (.error e, s1, t) => (.error e, s1, t)
  | (.ok root, s1, t) =>
      let p := pathJoin root pkg "bin" bin
      if env.pathExists p then (.ok out, s1, t ++ [.runBinary bin])
      else
        (.error (.runtimeError ("Cannot find " ++ bin ++ " command: tried " ++ p
          ++ "\n" ++ installCmd env.globalInstall)), s1, t)

/-- `_NodeCommands.vl2vg`. -/
def vl2vg (env : NodeEnv σ) (i : Nat) (spec : σ) (s : NodeState) :
    Except NodeError σ × NodeState × List ExtCall :=
  runTool env i "vega-lite" "vl2vg" (env.vl2vg_run spec) s

/-- `_NodeCommands.vg2png`. -/
def vg2png (env : NodeEnv σ) (i : Nat) (spec : σ) (s : NodeState) :
    Except NodeError (List Nat) × NodeState × List ExtCall :=
  runTool env i "vega-cli" "vg2png" (env.vg2png_run spec) s

/-- `_NodeCommands.vg2pdf`. -/
def vg2pdf (env : NodeEnv σ) (i : Nat) (spec : σ) (s : NodeState) :
    Except NodeError (List Nat) × NodeState × List ExtCall :=
  runTool env i "vega-cli" "vg2pdf" (env.vg2pdf_run spec) s

/-- `_NodeCommands.vg2svg`. -/
def vg2svg (env : NodeEnv σ) (i : Nat) (spec : σ) (s : NodeState) :
    Except NodeError String × NodeState × List ExtCall :=
  runTool env i "vega-cli" "vg2svg" (env.vg2svg_run spec) s

/-- `_NodeCommands.vl2png`: `vl2vg` then `vg2png`. -/
def vl2png (env : NodeEnv σ) (i : Nat) (spec : σ) (s : NodeState) :
    Except NodeError (List Nat) × NodeState × List ExtCall :=
  match vl2vg env i spec s with
  | (.error e, s1, t) => (.error e, s1, t)
  | (.ok vg, s1, t) =>
      match vg2png env i vg s1 with
      | (r, s2, t2) => (r, s2, t ++ t2)

/-- `_NodeCommands.vl2pdf`: `vl2vg` then `vg2pdf`. -/
def vl2pdf (env : NodeEnv σ) (i : Nat) (spec : σ) (s : NodeState) :
    Except NodeError (List Nat) × NodeState × List ExtCall :=
  match vl2vg env i spec s with
  | (.error e, s1, t) => (.error e, s1, t)
  | (.ok vg, s1, t) =>
      match vg2pdf env i vg s1 with
      | (r, s2, t2) => (r, s2, t ++ t2)

/-- `_NodeCommands.vl2svg`: `vl2vg` then `vg2svg`. -/
def vl2svg (env : NodeEnv σ) (i : Nat) (spec : σ) (s : NodeState) :
    Except NodeError String × NodeState × List ExtCall :=
  match vl2vg env i spec s with
  | (.error e, s1, t) => (.error e, s1, t)
  | (.ok vg, s1, t) =>
      match vg2svg env i vg s1 with
      | (r, s2, t2) => (r, s2, t ++ t2)

end NodeCommands

namespace NodeSaver

/-- `NodeSaver.valid_formats`. -/
def validFormats : List String := ["pdf", "png", "svg", "vega", "vega-lite"]

/-- The versioned vega-lite MIME type built at `_node.py` lines 111-115:
`"application/vnd.vegalite.v{}+json".format(alt.VEGALITE_VERSION.split(".")[0])`. -/
def vegaliteMimeType (env : NodeEnv σ) : String :=
  "application/vnd.vegalite.v" ++ majorVersion env.vegaliteVersion ++ "+json"

/-- The versioned vega MIME type built at `_node.py` lines 119-123. -/
def vegaMimeType (env : NodeEnv σ) : String :=
  "application/vnd.vega.v" ++ majorVersion env.vegaVersion ++ "+json"

/-- The tail of `NodeSaver._mimebundle` (lines 118-131): dispatch on the
requested format over a spec that is already in vega form. -/
def fmtDispatch (env : NodeEnv σ) (i : Nat) (fmt : String) (spec : σ)
    (s : NodeState) :
    Except NodeError (Mimebundle σ) × NodeState × List ExtCall :=
  if fmt = "vega" then
    (.ok [(vegaMimeType env, .json spec)], s, [])
  else if fmt = "png" then
    match NodeCommands.vg2png env i spec s with
    | (.error e, s1, t) => (.error e, s1, t)
    | (.ok b, s1, t) => (.ok [("image/png", .bytes b)], s1, t)
  else if fmt = "svg" then
    match NodeCommands.vg2svg env i spec s with
    | (.error e, s1, t) => (.error e, s1, t)
    | (.ok x, s1, t) => (.ok [("image/svg+xml", .text x)], s1, t)
  else if fmt = "pdf" then
    match NodeCommands.vg2pdf env i spec s with
    | (.error e, s1, t) => (.error e, s1, t)
    | (.ok b, s1, t) => (.ok [("application/pdf", .bytes b)], s1, t)
  else
    (.error (.valueError ("Unrecognized format: " ++ fmt)), s, [])

/-- `NodeSaver._mimebundle` (lines 100-131): validate the mode, reject
the vega-mode / vega-lite-format pair, pass the spec through for the
vega-lite / vega-lite pair, otherwise upgrade vega-lite specs with
`vl2vg` and dispatch on the format. -/
def mimebundle (env : NodeEnv σ) (i : Nat) (mode : String) (spec : σ)
    (fmt : String) (s : NodeState) :
    Except NodeError (Mimebundle σ) × NodeState × List ExtCall :=
  if mode ≠ "vega" ∧ mode ≠ "vega-lite" then
    (.error (.valueError "mode must be either \x27vega\x27 or \x27vega-lite\x27"), s, [])
  else if mode = "vega" ∧ fmt = "vega-lite" then
    (.error (.valueError "mode=\x27vega\x27 not compatible with fmt=\x27vega-lite\x27"), s, [])
  else if mode = "vega-lite" then
    if fmt = "vega-lite" then
      (.ok [(vegaliteMimeType env, .json spec)], s, [])
    else
      match NodeCommands.vl2vg env i spec s with
      | (.error e, s1, t) => (.error e, s1, t)
      | (.ok vg, s1, t) =>
          match fmtDispatch env i fmt vg s1 with
          | (r, s2, t2) => (r, s2, t ++ t2)
  else
    fmtDispatch env i fmt spec s

end NodeSaver

/-! Browser adapter (`src/altair_saver/savers/_pyppeteer.py`). -/

/-- A Python value stored in an embed-options dict. -/
inductive PyVal where
  | str : String → PyVal
  | num : Int → PyVal
  | boolean : Bool → PyVal
deriving DecidableEq, Repr

/-- A Python dict with string keys, as an association list that keeps
insertion order (Python 3.7+ dict semantics). -/
abbrev PyDict := List (String × PyVal)

/-- `d[k] = v` on a dict value: overwrite in place when the key exists,
append otherwise. -/
def PyDict.setitem : PyDict → String → PyVal → PyDict
  | [], k, v => [(k, v)]
  | (k0, v0) :: rest, k, v =>
      if k0 = k then (k0, v) :: rest
      else (k0, v0) :: PyDict.setitem rest k v

/-- A heap of dict objects, addressed by allocation index, used to model
Python object identity for the mutation claims (`dict.copy()` allocates
a fresh object; item assignment mutates in place). -/
abbrev Store := List PyDict

/-- `d.copy()` where `d` is the dict at address `r`: allocate a fresh
cell holding the same entries and return its address. -/
def Store.copyDict (st : Store) (r : Nat) : Store × Nat :=
  (st ++ [st.getD r []], st.length)

/-- `st[r][k] = v`: mutate the dict object at address `r` in place. -/
def Store.setitemAt (st : Store) (r : Nat) (k : String) (v : PyVal) : Store :=
  st.set r (PyDict.setitem (st.getD r []) k v)

/-- Lines 137-138 of `_pyppeteer.py`, on the object heap:
`opt = self._embed_options.copy(); opt["mode"] = self._mode`.
Returns the heap after both statements and the address of `opt`. -/
def extractOptStep (st : Store) (embedRef : Nat) (mode : String) : Store × Nat :=
  let c := Store.copyDict st embedRef
  (Store.setitemAt c.1 c.2 "mode" (.str mode), c.2)

/-- Content returned across the evaluation bridge and out of the saver:
a string (PNG data-URL or SVG markup), a JSON spec, or raw bytes (after
serialization decodes a PNG data-URL). -/
inductive MimeContent (σ : Type) where
  | str : String → MimeContent σ
  | json : σ → MimeContent σ
  | bytes : List Nat → MimeContent σ
deriving DecidableEq, Repr

/-- The payload object returned by the in-page script: a JS object that
carries an `error` key or a `result` key.  `_extract` probes the
`error` key first (`if "error" in result`), so both fields are
modelled. -/
structure Payload (σ : Type) where
  errorField : Option String
  resultField : Option (MimeContent σ)

/-- Errors raised by the browser adapter: `JavascriptError` (a dedicated
`RuntimeError` subclass) for in-page failures, `ValueError` for invalid
requests, plus the exceptions the Python runtime would raise on
malformed data (`KeyError`, failed `assert`, out-of-range index in
`split(",", 1)[1]`, invalid base64). -/
inductive PypError where
  | javascriptError : String → PypError
  | valueError : String → PypError
  | keyError : String → PypError
  | assertionError : PypError
  | indexError : PypError
  | binasciiError : PypError
deriving DecidableEq, Repr

/-- External effects of the browser adapter. -/
inductive PypCall where
  | launchBrowser : PypCall
  | addScriptTag : String → PypCall
  | evaluateCall : PypCall
deriving DecidableEq, Repr

/-- Environment of the browser adapter: the page-evaluation bridge as an
oracle from (spec, embed options, format) to the returned payload, and
the pinned `vega_version` used for the versioned MIME type. -/
structure PypEnv (σ : Type) where
  evaluate : σ → PyDict → String → Payload σ
  vegaVersion : String

/-- The instance state of `PyppeteerSaver` that `_extract` and
`_serialize` read: `self._spec`, `self._mode`, `self._embed_options`. -/
structure PypSaver (σ : Type) where
  spec : σ
  mode : String
  embedOptions : PyDict

/-- The external invocations of one `_extract` call: launch the
browser, attach the three CDN script tags, evaluate the page script. -/
def pypExtractCalls : List PypCall :=
  [.launchBrowser, .addScriptTag "vega", .addScriptTag "vega-lite",
    .addScriptTag "vega-embed", .evaluateCall]

namespace PyppeteerSaver

/-- `PyppeteerSaver.valid_formats`, as a function of the mode key. -/
def validFormats (mode : String) : List String :=
  if mode = "vega" then ["png", "svg"]
  else if mode = "vega-lite" then ["png", "svg", "vega"]
  else []

/-- `PyppeteerSaver._extract` (lines 122-145): launch the browser, load
the shell and the three script tags, evaluate `EXTRACT_CODE` on the
spec, a copy of the embed options with `"mode"` injected, and the
format; raise `JavascriptError` when the payload has an `error` key,
else return its `result` value. -/
def extract (env : PypEnv σ) (sv : PypSaver σ) (fmt : String) :
    Except PypError (MimeContent σ) × List PypCall :=
  let opt := PyDict.setitem sv.embedOptions "mode" (.str sv.mode)
  let payload := env.evaluate sv.spec opt fmt
  match payload.errorField with
  | some e => (.error (.javascriptError e), pypExtractCalls)
  | none =>
      match payload.resultField with
      | some r => (.ok r, pypExtractCalls)
      | none => (.error (.keyError "result"), pypExtractCalls)

/-- `out.split(",", 1)[1]`: everything after the first comma; `none`
models the `IndexError` when the string has no comma. -/
def afterFirstComma (s : String) : Option String :=
  match s.data.dropWhile (fun c => c ≠ Char.ofNat 44) with
  | [] => none
  | _ :: rest => some (String.mk rest)

/-- Value of one base64 alphabet character. -/
def b64val (c : Char) : Option Nat :=
  if 65 ≤ c.toNat ∧ c.toNat ≤ 90 then some (c.toNat - 65)
  else if 97 ≤ c.toNat ∧ c.toNat ≤ 122 then some (c.toNat - 97 + 26)
  else if 48 ≤ c.toNat ∧ c.toNat ≤ 57 then some (c.toNat - 48 + 52)
  else if c = Char.ofNat 43 then some 62
  else if c = Char.ofNat 47 then some 63
  else none

/-- Decode base64 quads (with optional final padding) into bytes. -/
def b64chunks : List Char → Option (List Nat)
  | [] => some []
  | [a, b, p1, p2] =>
      if p1 = Char.ofNat 61 ∧ p2 = Char.ofNat 61 then
        match b64val a, b64val b with
        | some va, some vb => some [va * 4 + vb / 16]
        | _, _ => none
      else if p2 = Char.ofNat 61 then
        match b64val a, b64val b, b64val p1 with
        | some va, some vb, some vc =>
            some [va * 4 + vb / 16, (vb % 16) * 16 + vc / 4]
        | _, _, _ => none
      else
        match b64val a, b64val b, b64val p1, b64val p2 with
        | some va, some vb, some vc, some vd =>
            some [va * 4 + vb / 16, (vb % 16) * 16 + vc / 4, (vc % 4) * 64 + vd]
        | _, _, _, _ => none
  | a :: b :: c :: d :: rest =>
      match b64val a, b64val b, b64val c, b64val d, b64chunks rest with
      | some va, some vb, some vc, some vd, some tail =>
          some ([va * 4 + vb / 16, (vb % 16) * 16 + vc / 4, (vc % 4) * 64 + vd] ++ tail)
      | _, _, _, _, _ => none
  | _ => none

/-- `base64.b64decode`: discard characters outside the alphabet and
padding, then decode quads; `none` models `binascii.Error`. -/
def b64decode (s : String) : Option (List Nat) :=
  b64chunks (s.data.filter (fun c => (b64val c).isSome ∨ c = Char.ofNat 61))

/-- `PyppeteerSaver._serialize` (lines 147-159): run `_extract` to
completion, then post-process by format — PNG data-URLs are split at
the first comma and base64-decoded to bytes, SVG and vega results pass
through, anything else raises `ValueError`. -/
def serialize (env : PypEnv σ) (sv : PypSaver σ) (fmt : String) :
    Except PypError (MimeContent σ) × List PypCall :=
  match extract env sv fmt with
  | (.error e, t) => (.error e, t)
  | (.ok out, t) =>
      if fmt = "png" then
        match out with
        | .str s =>
            match afterFirstComma s with
            | some tail =>
                match b64decode tail with
                | some bs => (.ok (.bytes bs), t)
                | none => (.error .binasciiError, t)
            | none => (.error .indexError, t)
        | _ => (.error .assertionError, t)
      else if fmt = "svg" then (.ok out, t)
      else if fmt = "vega" then (.ok out, t)
      else (.error (.valueError ("Unrecognized format: " ++ fmt)), t)

/-- The documented MIME type of each browser-adapter format. -/
def pypMimeType (env : PypEnv σ) (fmt : String) : String :=
  if fmt = "png" then "image/png"
  else if fmt = "svg" then "image/svg+xml"
  else if fmt = "vega" then
    "application/vnd.vega.v" ++ majorVersion env.vegaVersion ++ "+json"
  else ""

/-- Modelled from the spec: the abstract `Saver.mimebundle` wrapper that
drives `_serialize` lives in the base class `_saver.py`, which is not
among the source files; per the spec it "validates that `mode` and
`fmt` are a compatible pair" against the adapter's declared
`valid_formats` before any external process is invoked, and tags the
serialized content with the documented MIME type for the format. -/
def mimebundle (env : PypEnv σ) (sv : PypSaver σ) (fmt : String) :
    Except PypError (List (String × MimeContent σ)) × List PypCall :=
  if fmt ∈ validFormats sv.mode then
    match serialize env sv fmt with
    | (.error e, t) => (.error e, t)
    | (.ok c, t) => (.ok [(pypMimeType env fmt, c)], t)
  else
    (.error (.valueError ("Invalid format: " ++ fmt)), [])

end PyppeteerSaver

/-!
Claim-side definitions and concrete fixtures.  `docMimeType` transcribes
the documented MIME-type table from the specification; the `env…`
values are concrete environments used to evaluate the embedding at
specific inputs.
-/

/-- The documented MIME type of each command-line-adapter format, as
the specification lists it: `image/png` for png, `image/svg+xml` for
svg, `application/pdf` for pdf, and the versioned JSON types for vega
and vega-lite. -/
def docMimeType (env : NodeEnv σ) (fmt : String) : String :=
  if fmt = "png" then "image/png"
  else if fmt = "svg" then "image/svg+xml"
  else if fmt = "pdf" then "application/pdf"
  else if fmt = "vega" then
    "application/vnd.vega.v" ++ majorVersion env.vegaVersion ++ "+json"
  else if fmt = "vega-lite" then
    "application/vnd.vegalite.v" ++ majorVersion env.vegaliteVersion ++ "+json"
  else ""

/-- A fully working command-line environment over `Nat` specs: every
path exists, `npm root` reports `/r`, and the converter oracles are
simple computable stand-ins. -/
def envN : NodeEnv Nat where
  globalInstall := true
  npmRootOutput := "/r"
  isdir := fun _ => true
  pathExists := fun _ => true
  vl2vg_run := fun n => n + 1
  vg2png_run := fun n => [n]
  vg2pdf_run := fun n => [n, n]
  vg2svg_run := fun n => toString n
  vegaVersion := "5.10.0"
  vegaliteVersion := "4.8.1"

/-- The same environment but with an `npm root` answer that is not a
directory on disk. -/
def envNBad : NodeEnv Nat := { envN with isdir := fun _ => false }

/-- A browser environment whose page evaluation always reports an
in-page error payload. -/
def pypEnvErr : PypEnv Nat where
  evaluate := fun _ _ _ => ⟨some "boom", none⟩
  vegaVersion := "5.10.0"

/-- A browser environment whose page evaluation returns a PNG data-URL
result payload. -/
def pypEnvPng : PypEnv Nat where
  evaluate := fun _ _ _ => ⟨none, some (.str "data:image/png;base64,AAEC")⟩
  vegaVersion := "5.10.0"

/-- A concrete browser-saver instance state in vega-lite mode. -/
def pypSv : PypSaver Nat where
  spec := 7
  mode := "vega-lite"
  embedOptions := [("scaleFactor", .num 2)]

/-- A one-dict heap fixture for the embed-options mutation claim. -/
def stFix : Store := [[("scaleFactor", PyVal.num 2)]]

/-!
Helper lemmas about the command-line adapter under a working
installation.
-/

lemma npmRoot_ok_of_isdir {σ : Type} (env : NodeEnv σ) (i : Nat) (s : NodeState)
    (hdir : env.isdir env.npmRootOutput = true) :
    ∃ r s' t, NodeCommands.npmRoot env i s = (.ok r, s', t) := by
  rcases s with ⟨cache⟩
  cases cache with
  | none =>
      exact ⟨env.npmRootOutput, ⟨some (i, env.npmRootOutput)⟩, [.npmRootQuery],
        by simp [NodeCommands.npmRoot, NodeCommands.npmRootCompute, hdir]⟩
  | some p =>
      rcases p with ⟨j, r⟩
      by_cases hj : j = i
      · exact ⟨r, ⟨some (j, r)⟩, [],
          by simp [NodeCommands.npmRoot, hj]⟩
      · exact ⟨env.npmRootOutput, ⟨some (i, env.npmRootOutput)⟩, [.npmRootQuery],
          by simp [NodeCommands.npmRoot, NodeCommands.npmRootCompute, hj, hdir]⟩

lemma runTool_ok {σ α : Type} (env : NodeEnv σ) (i : Nat) (pkg bin : String)
    (out : α) (s : NodeState)
    (hdir : env.isdir env.npmRootOutput = true)
    (hbin : ∀ p, env.pathExists p = true) :
    ∃ s' t, NodeCommands.runTool env i pkg bin out s = (.ok out, s', t) := by
  obtain ⟨r, s', t, hroot⟩ := npmRoot_ok_of_isdir env i s hdir
  refine ⟨s', t ++ [.runBinary bin], ?_⟩
  unfold NodeCommands.runTool
  rw [hroot]
  simp [hbin]

lemma vl2vg_ok {σ : Type} (env : NodeEnv σ) (i : Nat) (spec : σ) (s : NodeState)
    (hdir : env.isdir env.npmRootOutput = true)
    (hbin : ∀ p, env.pathExists p = true) :
    ∃ s' t, NodeCommands.vl2vg env i spec s = (.ok (env.vl2vg_run spec), s', t) :=
  runTool_ok env i "vega-lite" "vl2vg" (env.vl2vg_run spec) s hdir hbin

lemma vg2png_ok {σ : Type} (env : NodeEnv σ) (i : Nat) (spec : σ) (s : NodeState)
    (hdir : env.isdir env.npmRootOutput = true)
    (hbin : ∀ p, env.pathExists p = true) :
    ∃ s' t, NodeCommands.vg2png env i spec s = (.ok (env.vg2png_run spec), s', t) :=
  runTool_ok env i "vega-cli" "vg2png" (env.vg2png_run spec) s hdir hbin

lemma vg2pdf_ok {σ : Type} (env : NodeEnv σ) (i : Nat) (spec : σ) (s : NodeState)
    (hdir : env.isdir env.npmRootOutput = true)
    (hbin : ∀ p, env.pathExists p = true) :
    ∃ s' t, NodeCommands.vg2pdf env i spec s = (.ok (env.vg2pdf_run spec), s', t) :=
  runTool_ok env i "vega-cli" "vg2pdf" (env.vg2pdf_run spec) s hdir hbin

lemma vg2svg_ok {σ : Type} (env : NodeEnv σ) (i : Nat) (spec : σ) (s : NodeState)
    (hdir : env.isdir env.npmRootOutput = true)
    (hbin : ∀ p, env.pathExists p = true) :
    ∃ s' t, NodeCommands.vg2svg env i spec s = (.ok (env.vg2svg_run spec), s', t) :=
  runTool_ok env i "vega-cli" "vg2svg" (env.vg2svg_run spec) s hdir hbin

lemma fmtDispatch_ok {σ : Type} (env : NodeEnv σ) (i : Nat) (fmt : String)
    (spec : σ) (s : NodeState)
    (hfmt : fmt = "vega" ∨ fmt = "png" ∨ fmt = "svg" ∨ fmt = "pdf")
    (hdir : env.isdir env.npmRootOutput = true)
    (hbin : ∀ p, env.pathExists p = true) :
    ∃ c s' t, NodeSaver.fmtDispatch env i fmt spec s
      = (.ok [(docMimeType env fmt, c)], s', t) := by
  rcases hfmt with rfl | rfl | rfl | rfl
  · exact ⟨.json spec, s, [], rfl⟩
  · obtain ⟨s1, t1, h1⟩ := vg2png_ok env i spec s hdir hbin
    exact ⟨.bytes (env.vg2png_run spec), s1, t1,
      by simp [NodeSaver.fmtDispatch, docMimeType, h1]⟩
  · obtain ⟨s1, t1, h1⟩ := vg2svg_ok env i spec s hdir hbin
    exact ⟨.text (env.vg2svg_run spec), s1, t1,
      by simp [NodeSaver.fmtDispatch, docMimeType, h1]⟩
  · obtain ⟨s1, t1, h1⟩ := vg2pdf_ok env i spec s hdir hbin
    exact ⟨.bytes (env.vg2pdf_run spec), s1, t1,
      by simp [NodeSaver.fmtDispatch, docMimeType, h1]⟩

lemma compute_ok_cache {σ : Type} (env : NodeEnv σ) (i : Nat) (s : NodeState)
    (r : String) (s1 : NodeState) (t : List ExtCall)
    (h : NodeCommands.npmRootCompute env i s = (.ok r, s1, t)) :
    s1.npmCache = some (i, r) := by
  unfold NodeCommands.npmRootCompute at h
  by_cases hdir : env.isdir env.npmRootOutput = true
  · rw [if_pos hdir] at h
    simp only [Prod.mk.injEq, Except.ok.injEq] at h
    obtain ⟨h1, h2, h3⟩ := h
    subst h1
    rw [← h2]
  · rw [if_neg hdir] at h
    simp at h

lemma npmRoot_ok_cache {σ : Type} (env : NodeEnv σ) (i : Nat) (s : NodeState)
    (r : String) (s1 : NodeState) (t : List ExtCall)
    (h : NodeCommands.npmRoot env i s = (.ok r, s1, t)) :
    s1.npmCache = some (i, r) := by
  rcases s with ⟨cache⟩
  cases cache with
  | none => exact compute_ok_cache env i _ r s1 t h
  | some p =>
      rcases p with ⟨j, r0⟩
      unfold NodeCommands.npmRoot at h
      dsimp only at h
      by_cases hj : j = i
      · rw [if_pos hj] at h
        simp only [Prod.mk.injEq, Except.ok.injEq] at h
        obtain ⟨h1, h2, h3⟩ := h
        subst h1
        rw [← h2, hj]
      · rw [if_neg hj] at h
        exact compute_ok_cache env i _ r s1 t h

/-!
Claim theorems.
-/

/-- Claim C3: for every spec, requesting format `vega-lite` in mode `vega`
fails with an invalid-request `ValueError` in `NodeSaver._mimebundle`
with an empty external-call trace, and (with the validation wrapper
modelled from the spec) in the browser adapter's mimebundle as well,
with no browser launched. -/
theorem c3_vega_mode_vegalite_format_rejected {σ : Type} (env : NodeEnv σ)
    (i : Nat) (spec : σ) (s : NodeState)
    (penv : PypEnv σ) (pspec : σ) (opts : PyDict) :
    NodeSaver.mimebundle env i "vega" spec "vega-lite" s
      = (.error (.valueError "mode=\x27vega\x27 not compatible with fmt=\x27vega-lite\x27"), s, []) ∧
    PyppeteerSaver.mimebundle penv ⟨pspec, "vega", opts⟩ "vega-lite"
      = (.error (.valueError "Invalid format: vega-lite"), []) :=
  ⟨rfl, rfl⟩

/-- Claim C4: in vega-lite mode with format `vega-lite`,
`NodeSaver._mimebundle` returns the input spec unchanged under the
single key `application/vnd.vegalite.v{major}+json`, with no external
call and unchanged state. -/
theorem c4_vegalite_passthrough {σ : Type} (env : NodeEnv σ) (i : Nat)
    (spec : σ) (s : NodeState) :
    NodeSaver.mimebundle env i "vega-lite" spec "vega-lite" s
      = (.ok [("application/vnd.vegalite.v" ++ majorVersion env.vegaliteVersion ++ "+json",
          .json spec)], s, []) :=
  rfl

/-- Claim C9: in vega mode with format `vega`, `NodeSaver._mimebundle`
returns the input spec unchanged under the single versioned vega JSON
key, with no external converter invoked. -/
theorem c9_vega_passthrough {σ : Type} (env : NodeEnv σ) (i : Nat)
    (spec : σ) (s : NodeState) :
    NodeSaver.mimebundle env i "vega" spec "vega" s
      = (.ok [("application/vnd.vega.v" ++ majorVersion env.vegaVersion ++ "+json",
          .json spec)], s, []) :=
  rfl

/-- Claim C5: the composite `vl2png` path equals chaining `vl2vg` and then
`vg2png` (identical bytes, states, and concatenated traces), and
likewise `vl2pdf` and `vl2svg` equal the chains through `vg2pdf` and
`vg2svg`. -/
theorem c5_composite_chains {σ : Type} (env : NodeEnv σ) (i : Nat)
    (spec : σ) (s : NodeState) :
    (∀ vg s1 t1 b s2 t2, NodeCommands.vl2vg env i spec s = (.ok vg, s1, t1) →
        NodeCommands.vg2png env i vg s1 = (.ok b, s2, t2) →
        NodeCommands.vl2png env i spec s = (.ok b, s2, t1 ++ t2)) ∧
    (∀ vg s1 t1 b s2 t2, NodeCommands.vl2vg env i spec s = (.ok vg, s1, t1) →
        NodeCommands.vg2pdf env i vg s1 = (.ok b, s2, t2) →
        NodeCommands.vl2pdf env i spec s = (.ok b, s2, t1 ++ t2)) ∧
    (∀ vg s1 t1 x s2 t2, NodeCommands.vl2vg env i spec s = (.ok vg, s1, t1) →
        NodeCommands.vg2svg env i vg s1 = (.ok x, s2, t2) →
        NodeCommands.vl2svg env i spec s = (.ok x, s2, t1 ++ t2)) := by
  refine ⟨?_, ?_, ?_⟩ <;>
    · intro vg s1 t1 b s2 t2 h1 h2
      simp only [NodeCommands.vl2png, NodeCommands.vl2pdf, NodeCommands.vl2svg, h1, h2]

/-- Witness for C5 at a concrete working environment. -/
theorem c5_composite_chains_witness :
    NodeCommands.vl2png envN 0 (5 : Nat) ⟨none⟩
      = (.ok [6], ⟨some (0, "/r")⟩,
         ([.npmRootQuery, .runBinary "vl2vg"] ++ [.runBinary "vg2png"] : List ExtCall)) :=
  (c5_composite_chains envN 0 5 ⟨none⟩).1 6 ⟨some (0, "/r")⟩
    [.npmRootQuery, .runBinary "vl2vg"] [6] ⟨some (0, "/r")⟩ [.runBinary "vg2png"]
    (by decide) (by decide)

/-- Claim C1: for every (mode, format) pair declared valid, the
mimebundle has exactly one key, which is the documented MIME type of
the format.  Command-line adapter: under a working installation,
`_mimebundle` returns a one-entry bundle keyed by `docMimeType`.
Browser adapter (validation wrapper modelled from the spec): whenever
serialization of a declared-valid format succeeds, the bundle is one
entry keyed by the documented MIME type. -/
theorem c1_valid_pairs_single_mime_key {σ : Type} (env : NodeEnv σ) (i : Nat)
    (mode fmt : String) (spec : σ) (s : NodeState)
    (hmode : mode = "vega" ∨ mode = "vega-lite")
    (hfmt : fmt ∈ NodeSaver.validFormats)
    (hpair : ¬(mode = "vega" ∧ fmt = "vega-lite"))
    (hdir : env.isdir env.npmRootOutput = true)
    (hbin : ∀ p, env.pathExists p = true) :
    (∃ c s' t, NodeSaver.mimebundle env i mode spec fmt s
        = (.ok [(docMimeType env fmt, c)], s', t)) ∧
    (∀ (penv : PypEnv σ) (sv : PypSaver σ) (pfmt : String)
        (c : MimeContent σ) (t : List PypCall),
        pfmt ∈ PyppeteerSaver.validFormats sv.mode →
        PyppeteerSaver.serialize penv sv pfmt = (.ok c, t) →
        PyppeteerSaver.mimebundle penv sv pfmt
          = (.ok [(PyppeteerSaver.pypMimeType penv pfmt, c)], t)) := by
  constructor
  · simp only [NodeSaver.validFormats, List.mem_cons, List.not_mem_nil, or_false] at hfmt
    rcases hmode with rfl | rfl
    · have hne : fmt ≠ "vega-lite" := fun h => hpair ⟨rfl, h⟩
      have hfmt4 : fmt = "vega" ∨ fmt = "png" ∨ fmt = "svg" ∨ fmt = "pdf" := by
        rcases hfmt with rfl | rfl | rfl | rfl | rfl <;> simp_all
      obtain ⟨c, s1, t1, h1⟩ := fmtDispatch_ok env i fmt spec s hfmt4 hdir hbin
      refine ⟨c, s1, t1, ?_⟩
      simp [NodeSaver.mimebundle, hne, h1]
    · by_cases hvl : fmt = "vega-lite"
      · subst hvl
        exact ⟨.json spec, s, [], rfl⟩
      · have hfmt4 : fmt = "vega" ∨ fmt = "png" ∨ fmt = "svg" ∨ fmt = "pdf" := by
          rcases hfmt with rfl | rfl | rfl | rfl | rfl <;> simp_all
        obtain ⟨s1, t1, h1⟩ := vl2vg_ok env i spec s hdir hbin
        obtain ⟨c, s2, t2, h2⟩ :=
          fmtDispatch_ok env i fmt (env.vl2vg_run spec) s1 hfmt4 hdir hbin
        refine ⟨c, s2, t1 ++ t2, ?_⟩
        simp [NodeSaver.mimebundle, hvl, h1, h2]
  · intro penv sv pfmt c t hmem hser
    simp [PyppeteerSaver.mimebundle, hmem, hser]

/-- Witness for C1: the vega-lite/png pair in the working environment,
and the browser adapter's png serialization of a data-URL payload. -/
theorem c1_valid_pairs_witness :
    (∃ c s' t, NodeSaver.mimebundle envN 0 "vega-lite" (5 : Nat) "png" ⟨none⟩
        = (.ok [(docMimeType envN "png", c)], s', t)) ∧
    PyppeteerSaver.mimebundle pypEnvPng pypSv "png"
      = (.ok [(PyppeteerSaver.pypMimeType pypEnvPng "png", .bytes [0, 1, 2])],
         pypExtractCalls) :=
  ⟨(c1_valid_pairs_single_mime_key envN 0 "vega-lite" "png" 5 ⟨none⟩
      (Or.inr rfl) (by decide) (by decide) rfl (fun _ => rfl)).1,
   (c1_valid_pairs_single_mime_key envN 0 "vega-lite" "png" 5 ⟨none⟩
      (Or.inr rfl) (by decide) (by decide) rfl (fun _ => rfl)).2
     pypEnvPng pypSv "png" (.bytes [0, 1, 2]) pypExtractCalls (by decide) (by decide)⟩

/-- Counterexample to claim C2 as stated: in vega-lite mode an
unrecognized format still raises the invalid-request `ValueError`, but
only after the `vl2vg` converter binary has been invoked — the
external-call trace of the failing call contains `runBinary "vl2vg"`,
contradicting "raised before any external process is invoked". -/
theorem c2_unrecognized_format_counterexample :
    NodeSaver.mimebundle envN 0 "vega-lite" (5 : Nat) "bogus" ⟨none⟩
      = (.error (.valueError "Unrecognized format: bogus"), ⟨some (0, "/r")⟩,
         [.npmRootQuery, .runBinary "vl2vg"]) ∧
    ExtCall.runBinary "vl2vg" ∈
      (NodeSaver.mimebundle envN 0 "vega-lite" (5 : Nat) "bogus" ⟨none⟩).2.2 := by
  decide

/-- Claim C2, amended: an unrecognized format string always fails; in
mode `vega` the command-line adapter raises the invalid-request
`ValueError` with no external process invoked, while in mode
`vega-lite` the `vl2vg` upgrade step runs (or fails) first; the browser
adapter's spec-modelled validation wrapper rejects the format with no
browser launched. -/
theorem c2_unrecognized_format_amended (fmt : String)
    (hfmt : fmt ∉ NodeSaver.validFormats) :
    (∀ (σ : Type) (mode : String) (env : NodeEnv σ) (i : Nat) (spec : σ)
        (s : NodeState),
        ∃ e s1 t, NodeSaver.mimebundle env i mode spec fmt s = (.error e, s1, t)) ∧
    (∀ (σ : Type) (env : NodeEnv σ) (i : Nat) (spec : σ) (s : NodeState),
        NodeSaver.mimebundle env i "vega" spec fmt s
          = (.error (.valueError ("Unrecognized format: " ++ fmt)), s, [])) ∧
    (∀ (σ : Type) (env : PypEnv σ) (sv : PypSaver σ),
        PyppeteerSaver.mimebundle env sv fmt
          = (.error (.valueError ("Invalid format: " ++ fmt)), [])) := by
  simp only [NodeSaver.validFormats, List.mem_cons, List.not_mem_nil, or_false,
    not_or] at hfmt
  obtain ⟨hpdf, hpng, hsvg, hvega, hvl⟩ := hfmt
  refine ⟨?_, ?_, ?_⟩
  · intro σ mode env i spec s
    by_cases hm1 : mode = "vega"
    · subst hm1
      exact ⟨.valueError ("Unrecognized format: " ++ fmt), s, [],
        by simp [NodeSaver.mimebundle, NodeSaver.fmtDispatch, hpdf, hpng, hsvg,
          hvega, hvl]⟩
    · by_cases hm2 : mode = "vega-lite"
      · subst hm2
        rcases h1 : NodeCommands.vl2vg env i spec s with ⟨r, s1, t1⟩
        cases r with
        | error e => exact ⟨e, s1, t1, by simp [NodeSaver.mimebundle, hvl, h1]⟩
        | ok vg =>
            exact ⟨.valueError ("Unrecognized format: " ++ fmt), s1, t1, by
              simp [NodeSaver.mimebundle, NodeSaver.fmtDispatch, hvl, hpng, hsvg,
                hpdf, hvega, h1]⟩
      · exact ⟨.valueError "mode must be either \x27vega\x27 or \x27vega-lite\x27",
          s, [], by simp [NodeSaver.mimebundle, hm1, hm2]⟩
  · intro σ env i spec s
    simp [NodeSaver.mimebundle, NodeSaver.fmtDispatch, hpdf, hpng, hsvg, hvega, hvl]
  · intro σ env sv
    have hnot : fmt ∉ PyppeteerSaver.validFormats sv.mode := by
      unfold PyppeteerSaver.validFormats
      split
      · simp_all
      · split
        · simp_all
        · simp
    simp [PyppeteerSaver.mimebundle, hnot]

/-- Witness for the amended C2 at the format string `bogus`. -/
theorem c2_unrecognized_format_witness :
    NodeSaver.mimebundle envN 0 "vega" (5 : Nat) "bogus" ⟨none⟩
      = (.error (.valueError ("Unrecognized format: " ++ "bogus")), ⟨none⟩, []) ∧
    PyppeteerSaver.mimebundle pypEnvPng pypSv "bogus"
      = (.error (.valueError ("Invalid format: " ++ "bogus")), []) :=
  ⟨(c2_unrecognized_format_amended "bogus" (by decide)).2.1 Nat envN 0 5 ⟨none⟩,
   (c2_unrecognized_format_amended "bogus" (by decide)).2.2 Nat pypEnvPng pypSv⟩

/-- Claim C6: when the payload returned by the page evaluation carries a
non-empty error field, `_extract` raises the dedicated
`JavascriptError` whose message is exactly the page-reported string;
when the payload has no error field, `_extract` returns the payload's
result value. -/
theorem c6_extract_error_payload {σ : Type} (env : PypEnv σ) (sv : PypSaver σ)
    (fmt : String) :
    (∀ e, e ≠ "" →
        (env.evaluate sv.spec (PyDict.setitem sv.embedOptions "mode" (.str sv.mode))
            fmt).errorField = some e →
        PyppeteerSaver.extract env sv fmt
          = (.error (.javascriptError e), pypExtractCalls)) ∧
    (∀ r, (env.evaluate sv.spec (PyDict.setitem sv.embedOptions "mode" (.str sv.mode))
            fmt).errorField = none →
        (env.evaluate sv.spec (PyDict.setitem sv.embedOptions "mode" (.str sv.mode))
            fmt).resultField = some r →
        PyppeteerSaver.extract env sv fmt = (.ok r, pypExtractCalls)) := by
  constructor
  · intro e _ he
    simp [PyppeteerSaver.extract, he]
  · intro r he hr
    simp [PyppeteerSaver.extract, he, hr]

/-- Witness for C6: a forced in-page error surfaces as
`JavascriptError "boom"`, and an error-free payload's result is
returned. -/
theorem c6_extract_error_payload_witness :
    PyppeteerSaver.extract pypEnvErr pypSv "svg"
      = (.error (.javascriptError "boom"), pypExtractCalls) ∧
    PyppeteerSaver.extract pypEnvPng pypSv "png"
      = (.ok (.str "data:image/png;base64,AAEC"), pypExtractCalls) :=
  ⟨(c6_extract_error_payload pypEnvErr pypSv "svg").1 "boom" (by decide) rfl,
   (c6_extract_error_payload pypEnvPng pypSv "png").2
     (.str "data:image/png;base64,AAEC") rfl rfl⟩

/-- Claim C7: `_serialize` post-processes the extracted result by
format — a PNG data-URL is split at the first comma and the portion
after it base64-decoded to the returned bytes, while svg and vega
results are returned unchanged. -/
theorem c7_serialize_postprocess {σ : Type} (env : PypEnv σ) (sv : PypSaver σ) :
    (∀ u tail bs,
        PyppeteerSaver.extract env sv "png" = (.ok (.str u), pypExtractCalls) →
        PyppeteerSaver.afterFirstComma u = some tail →
        PyppeteerSaver.b64decode tail = some bs →
        PyppeteerSaver.serialize env sv "png" = (.ok (.bytes bs), pypExtractCalls)) ∧
    (∀ out, PyppeteerSaver.extract env sv "svg" = (.ok out, pypExtractCalls) →
        PyppeteerSaver.serialize env sv "svg" = (.ok out, pypExtractCalls)) ∧
    (∀ out, PyppeteerSaver.extract env sv "vega" = (.ok out, pypExtractCalls) →
        PyppeteerSaver.serialize env sv "vega" = (.ok out, pypExtractCalls)) := by
  refine ⟨?_, ?_, ?_⟩
  · intro u tail bs hext hcomma hdec
    simp [PyppeteerSaver.serialize, hext, hcomma, hdec]
  · intro out hext
    simp [PyppeteerSaver.serialize, hext]
  · intro out hext
    simp [PyppeteerSaver.serialize, hext]

/-- Witness for C7: the concrete data-URL `data:image/png;base64,AAEC`
decodes to the bytes `[0, 1, 2]`, and an svg result passes through. -/
theorem c7_serialize_postprocess_witness :
    PyppeteerSaver.serialize pypEnvPng pypSv "png"
      = (.ok (.bytes [0, 1, 2]), pypExtractCalls) ∧
    PyppeteerSaver.serialize pypEnvPng pypSv "svg"
      = (.ok (.str "data:image/png;base64,AAEC"), pypExtractCalls) :=
  ⟨(c7_serialize_postprocess pypEnvPng pypSv).1 "data:image/png;base64,AAEC"
      "AAEC" [0, 1, 2] rfl rfl rfl,
   (c7_serialize_postprocess pypEnvPng pypSv).2.1
      (.str "data:image/png;base64,AAEC") rfl⟩

/-- Counterexample to claim C8 as stated: because `@lru_cache(1)` is a
single shared slot keyed by the instance, an interleaved query from a
second adapter instance evicts the first instance's entry, and the
first instance's next access performs the external `npm root` query
again — the cached value is not reused for the instance's whole
lifetime. -/
theorem c8_npm_root_cache_counterexample :
    NodeCommands.npmRoot envN 0 ⟨none⟩
      = (.ok "/r", ⟨some (0, "/r")⟩, [.npmRootQuery]) ∧
    NodeCommands.npmRoot envN 1 ⟨some (0, "/r")⟩
      = (.ok "/r", ⟨some (1, "/r")⟩, [.npmRootQuery]) ∧
    NodeCommands.npmRoot envN 0 ⟨some (1, "/r")⟩
      = (.ok "/r", ⟨some (0, "/r")⟩, [.npmRootQuery]) := by
  decide

/-- Claim C8, amended: when the reported npm root is not a directory,
`npm_root` (and with it every converter) fails with the configuration
`RuntimeError` before any converter binary is run; a successful result
is cached, and an immediately following access by the same instance
reuses it with no external query (the reuse lasts until another
instance's access evicts the single shared cache slot). -/
theorem c8_npm_root_discovery_amended {σ α : Type} (env : NodeEnv σ) (i : Nat)
    (s : NodeState) :
    (s.npmCache = none → env.isdir env.npmRootOutput = false →
        (NodeCommands.npmRoot env i s
            = (.error (.runtimeError ("npm root not found; got " ++ env.npmRootOutput)),
               s, [.npmRootQuery]) ∧
         ∀ (pkg bin : String) (out : α),
           NodeCommands.runTool env i pkg bin out s
             = (.error (.runtimeError ("npm root not found; got " ++ env.npmRootOutput)),
                s, [.npmRootQuery]))) ∧
    (∀ r s1 t, NodeCommands.npmRoot env i s = (.ok r, s1, t) →
        NodeCommands.npmRoot env i s1 = (.ok r, s1, [])) := by
  constructor
  · intro hc hdir
    have hroot : NodeCommands.npmRoot env i s
        = (.error (.runtimeError ("npm root not found; got " ++ env.npmRootOutput)),
           s, [.npmRootQuery]) := by
      rcases s with ⟨cache⟩
      simp only [NodeState.mk.injEq] at hc
      subst hc
      simp [NodeCommands.npmRoot, NodeCommands.npmRootCompute, hdir]
    refine ⟨hroot, fun pkg bin out => ?_⟩
    unfold NodeCommands.runTool
    rw [hroot]
  · intro r s1 t h
    have hc := npmRoot_ok_cache env i s r s1 t h
    rcases s1 with ⟨cache1⟩
    simp only at hc
    subst hc
    simp [NodeCommands.npmRoot]

/-- Witness for the amended C8: the bad environment fails before any
converter runs, and in the working environment a cached root is reused
with no external query. -/
theorem c8_npm_root_discovery_witness :
    (NodeCommands.npmRoot envNBad 0 ⟨none⟩
        = (.error (.runtimeError ("npm root not found; got " ++ "/r")), ⟨none⟩,
           [.npmRootQuery]) ∧
     NodeCommands.runTool envNBad 0 "vega-lite" "vl2vg" (envNBad.vl2vg_run 5) ⟨none⟩
        = (.error (.runtimeError ("npm root not found; got " ++ "/r")), ⟨none⟩,
           [.npmRootQuery])) ∧
    NodeCommands.npmRoot envN 0 ⟨some (0, "/r")⟩ = (.ok "/r", ⟨some (0, "/r")⟩, []) :=
  ⟨⟨((@c8_npm_root_discovery_amended Nat Nat envNBad 0 ⟨none⟩).1 rfl rfl).1,
    ((@c8_npm_root_discovery_amended Nat Nat envNBad 0 ⟨none⟩).1 rfl rfl).2
      "vega-lite" "vl2vg" (envNBad.vl2vg_run 5)⟩,
   (@c8_npm_root_discovery_amended Nat Nat envN 0 ⟨none⟩).2 "/r" ⟨some (0, "/r")⟩
     [.npmRootQuery] (by decide)⟩

/-- Claim C10: the extract step injects `mode` into a copy of the
stored embed-options dict: on the object heap, after
`opt = self._embed_options.copy(); opt["mode"] = self._mode` the dict
object at the stored reference is unchanged, and the fresh `opt` object
holds the stored entries with `mode` set. -/
theorem c10_embed_options_not_mutated (st : Store) (embedRef : Nat)
    (mode : String) (h : embedRef < st.length) :
    ((extractOptStep st embedRef mode).1).getD embedRef []
        = st.getD embedRef [] ∧
    ((extractOptStep st embedRef mode).1).getD (extractOptStep st embedRef mode).2 []
        = PyDict.setitem (st.getD embedRef []) "mode" (.str mode) := by
  have hne : st.length ≠ embedRef := Nat.ne_of_gt h
  constructor
  · simp [extractOptStep, Store.copyDict, Store.setitemAt, List.getD_eq_getElem?_getD,
      List.getElem?_set_ne hne, List.getElem?_append_left h]
  · simp [extractOptStep, Store.copyDict, Store.setitemAt, List.getD_eq_getElem?_getD,
      List.getElem?_concat_length]

/-- Witness for C10 on a one-dict heap. -/
theorem c10_embed_options_not_mutated_witness :
    ((extractOptStep stFix 0 "vega-lite").1).getD 0 [] = stFix.getD 0 [] ∧
    ((extractOptStep stFix 0 "vega-lite").1).getD (extractOptStep stFix 0 "vega-lite").2 []
      = PyDict.setitem (stFix.getD 0 []) "mode" (.str "vega-lite") :=
  c10_embed_options_not_mutated stFix 0 "vega-lite" (by decide)

end AltairSaver
